import Mathlib

/-!
# X-Following-Default: the generation-tracked reconciliation loop of content.js

A shallow embedding of `src/content.js`.  The script keeps three counters
(`pageGeneration`, `switchedGeneration`, `retries`) and the last observed path
(`lastPath`); it reacts to `pageshow` events, to `MutationObserver`
notifications and to `setTimeout` callbacks.

Modelling conventions.
* The browser is an input: every handler runs against an `Env`, the value of
  `location.pathname` and the `[role="tab"]` elements of the document at that
  instant.  Nothing is assumed about how the environment evolves between two
  handlers.
* The pending `setTimeout` callbacks are the `timers` field of the state; any
  pending callback may be the next to fire.
* The `trace` field records, in order, each read of `location.pathname`, each
  DOM query and each `click()`, stamped with the value `pageGeneration` had
  when it happened.  The trace is ghost state: the script never reads it.
* Counters are JavaScript numbers holding small integers; they are modelled as
  unbounded integers (the script only adds one to them).
-/

namespace XFollowing

/-! ## Configuration (content.js lines 8-17) -/

/-- Home timeline path, `HOME_PATH`. -/
def HOME_PATH : String := "/home"

/-- Label of the desired tab, `FOLLOWING_LABEL`. -/
def FOLLOWING_LABEL : String := "フォロー中"

/-- Delay of a retry in milliseconds, `RETRY_INTERVAL`. -/
def RETRY_INTERVAL : Nat := 300

/-- Retry ceiling, `RETRY_LIMIT`. -/
def RETRY_LIMIT : Nat := 25

/-! ## The browser as seen by the script -/

/-- An element matching `[role="tab"]`.  `innerText` is `none` when the element
has no `innerText` property (the script guards this with `?.`); `selected`
says whether the element also matches `[aria-selected="true"]`. -/
structure Tab where
  innerText : Option String
  selected : Bool
deriving DecidableEq, Repr

/-- What the script can read from the browser during one handler:
`location.pathname` and the `[role="tab"]` elements in document order. -/
structure Env where
  pathname : String
  tabs : List Tab
deriving DecidableEq, Repr

/-- The code points removed by `String.prototype.trim`: ECMAScript WhiteSpace
and LineTerminator. -/
def isJsWhiteSpace (c : Char) : Bool :=
  let n := c.toNat
  n == 0x09 || n == 0x0A || n == 0x0B || n == 0x0C || n == 0x0D || n == 0x20 ||
  n == 0xA0 || n == 0x1680 || (0x2000 ≤ n && n ≤ 0x200A) || n == 0x2028 ||
  n == 0x2029 || n == 0x202F || n == 0x205F || n == 0x3000 || n == 0xFEFF

/-- JavaScript `String.prototype.trim`. -/
def jsTrim (s : String) : String :=
  String.mk (((s.data.dropWhile isJsWhiteSpace).reverse.dropWhile isJsWhiteSpace).reverse)

/-- The test `tab.innerText?.trim() === FOLLOWING_LABEL` (lines 55 and 62). -/
def hasFollowingLabel (tab : Tab) : Bool :=
  match tab.innerText with
  | none => false
  | some t => jsTrim t == FOLLOWING_LABEL

/-- Function `isHome` (lines 43-45). -/
def isHome (env : Env) : Bool :=
  env.pathname == HOME_PATH

/-- Function `getSelectedTab` (lines 48-50): the first element in document
order matching `[role="tab"][aria-selected="true"]`, or `none` for `null`. -/
def getSelectedTab (env : Env) : Option Tab :=
  env.tabs.find? (fun tab => tab.selected)

/-- Function `isFollowingSelected` (lines 53-56). -/
def isFollowingSelected (env : Env) : Bool :=
  match getSelectedTab env with
  | none => false
  | some tab => hasFollowingLabel tab

/-- The `for` loop of `findFollowingTab` over the tabs from position `i` on. -/
def findFollowingTabFrom : List Tab → Nat → Option Nat
  | [], _ => none
  | tab :: rest, i => if hasFollowingLabel tab then some i else findFollowingTabFrom rest (i + 1)

/-- Function `findFollowingTab` (lines 59-65): the position, among the
`[role="tab"]` elements, of the first one carrying the label, or `none` for
`null`. -/
def findFollowingTab (env : Env) : Option Nat :=
  findFollowingTabFrom env.tabs 0

/-! ## State -/

/-- A callback handed to `setTimeout`.
* `deferred` is `() => trySwitchFollowing(pageGeneration)` of line 114: the
  variable `pageGeneration` is read when the callback runs.
* `retry gen` is `() => trySwitchFollowing(gen)` of line 98: `gen` is the
  parameter of the enclosing call, fixed when the callback is created. -/
inductive Callback where
  | deferred
  | retry (gen : Int)
deriving DecidableEq, Repr

/-- A pending `setTimeout`: the callback and the delay it was given. -/
structure Timer where
  callback : Callback
  delay : Nat
deriving DecidableEq, Repr

/-- Interactions with the browser that the trace records. -/
inductive Effect where
  | readPath
  | querySelector
  | querySelectorAll
  | click (tab : Nat)
deriving DecidableEq, Repr

/-- The script's variables, its pending callbacks and the ghost trace. -/
structure State where
  pageGeneration : Int
  switchedGeneration : Int
  retries : Nat
  lastPath : String
  timers : List Timer
  trace : List (Int × Effect)
deriving DecidableEq, Repr

/-- Append one effect to the trace, stamped with the current generation. -/
def emit (e : Effect) (s : State) : State :=
  { s with trace := s.trace ++ [(s.pageGeneration, e)] }

/-- Register a callback with `setTimeout`. -/
def setTimeout (cb : Callback) (delay : Nat) (s : State) : State :=
  { s with timers := s.timers ++ [⟨cb, delay⟩] }

/-! ## The script's functions -/

/-- Function `trySwitchFollowing` (lines 71-100). -/
def trySwitchFollowing (env : Env) (gen : Int) (s : State) : State :=
  if gen ≠ s.pageGeneration then s
  else
    let s1 := emit Effect.readPath s
    if !isHome env then s1
    else if s1.switchedGeneration = gen then s1
    else
      let s2 := emit Effect.querySelector s1
      if isFollowingSelected env then { s2 with switchedGeneration := gen }
      else
        let s3 := emit Effect.querySelectorAll s2
        match findFollowingTab env with
        | some tab => { emit (Effect.click tab) s3 with switchedGeneration := gen }
        | none =>
          let s4 := { s3 with retries := s3.retries + 1 }
          if s3.retries < RETRY_LIMIT then setTimeout (Callback.retry gen) RETRY_INTERVAL s4
          else s4

/-- Function `startNewGeneration` (lines 106-115). -/
def startNewGeneration (_reason : String) (s : State) : State :=
  setTimeout Callback.deferred 0
    { s with pageGeneration := s.pageGeneration + 1, retries := 0 }

/-- The `pageshow` listener (lines 129-137).  `persisted` is `e.persisted`,
`navType` is `nav?.type` for the first navigation entry. -/
def onPageshow (persisted : Bool) (navType : Option String) (s : State) : State :=
  if persisted || navType == some "reload" then startNewGeneration "reload" s else s

/-- The `MutationObserver` callback (lines 145-158). -/
def onMutation (env : Env) (s : State) : State :=
  let s1 := emit Effect.readPath s
  if env.pathname ≠ s1.lastPath then
    let s2 := { emit Effect.readPath s1 with lastPath := env.pathname }
    let s3 := emit Effect.readPath s2
    if isHome env then startNewGeneration "path-change" s3 else s3
  else
    let s2 := emit Effect.readPath s1
    if isHome env && s2.switchedGeneration ≠ s2.pageGeneration then
      startNewGeneration "dom-refresh" s2
    else s2

/-- The state before the first statement runs (lines 29, 33, 36); `lastPath`
is not yet initialised and is given the empty string. -/
def blank : State :=
  { pageGeneration := 0, switchedGeneration := -1, retries := 0, lastPath := "",
    timers := [], trace := [] }

/-- Running the script body once (lines 121-123 and 143), in the environment
present when the content script is injected. -/
def init (env : Env) : State :=
  let s1 := emit Effect.readPath blank
  let s2 := if isHome env then startNewGeneration "initial-load" s1 else s1
  { emit Effect.readPath s2 with lastPath := env.pathname }

/-- The `i`-th pending callback fires: it leaves the pending list and runs.
Firing a position that holds no callback does nothing. -/
def fire (env : Env) (i : Nat) (s : State) : State :=
  match s.timers.get? i with
  | none => s
  | some t =>
    let s1 := { s with timers := s.timers.eraseIdx i }
    match t.callback with
    | Callback.deferred => trySwitchFollowing env s1.pageGeneration s1
    | Callback.retry gen => trySwitchFollowing env gen s1

/-- What the event loop can deliver to the script. -/
inductive Event where
  | pageshow (persisted : Bool) (navType : Option String)
  | mutation
  | timer (i : Nat)
deriving DecidableEq, Repr

/-- One turn of the event loop: an event handled in an environment. -/
def step (s : State) (x : Env × Event) : State :=
  match x.2 with
  | Event.pageshow persisted navType => onPageshow persisted navType s
  | Event.mutation => onMutation x.1 s
  | Event.timer i => fire x.1 i s

/-- An execution: the turns of the event loop in order. -/
def run (s : State) (xs : List (Env × Event)) : State :=
  xs.foldl step s

/-- Number of `click()` calls in a trace made while `pageGeneration` was `E`. -/
def clicksAt (E : Int) (tr : List (Int × Effect)) : Nat :=
  (tr.filter (fun p => decide (p.1 = E) && (match p.2 with
    | Effect.click _ => true
    | _ => false))).length

/-- Number of attempts recorded in a trace that reached the locator (the
`querySelector` of `getSelectedTab`) while `pageGeneration` was `E`. -/
def attemptsAt (E : Int) (tr : List (Int × Effect)) : Nat :=
  tr.count (E, Effect.querySelector)

/-- A tick at which the home path is active and the locator reports the target
absent: not selected and not found. -/
def Absent (env : Env) : Prop :=
  isHome env = true ∧ isFollowingSelected env = false ∧ findFollowingTab env = none

/-- Timer-only execution: at each listed environment the oldest pending
callback fires. -/
def timerTicks (envs : List Env) : List (Env × Event) :=
  envs.map (fun e => (e, Event.timer 0))

/-- The callbacks pending in a generation `E` polled by a single chain, after
`k` attempts found the target absent. -/
def pendingAfter (E : Int) (k : Nat) : List Timer :=
  if k = 0 then [⟨Callback.deferred, 0⟩]
  else if k ≤ RETRY_LIMIT then [⟨Callback.retry E, RETRY_INTERVAL⟩]
  else []

/-- Home path, tab bar not rendered yet. -/
def homeEmpty : Env := ⟨"/home", []⟩

/-- Home path, "For you" selected, "Following" present and not selected. -/
def homeForYou : Env :=
  ⟨"/home", [⟨some "おすすめ", true⟩, ⟨some "フォロー中", false⟩]⟩

/-- Home path, "Following" selected. -/
def homeFollowing : Env :=
  ⟨"/home", [⟨some "おすすめ", false⟩, ⟨some "フォロー中", true⟩]⟩

/-- A path other than the home path. -/
def explore : Env := ⟨"/explore", []⟩

/-- The state reached when the script starts on the home path with
"Following" already selected and its first deferred attempt has run: generation
1 is current and settled, nothing is pending. -/
def settledHome : State :=
  run (init homeFollowing) [(homeFollowing, Event.timer 0)]

/-- The state reached when the script starts on the home path before the tab
bar is rendered and one mutation notification arrives before any timer fires:
generations 1 and 2 have been created and each left a deferred callback. -/
def twoDeferred : State :=
  run (init homeEmpty) [(homeEmpty, Event.mutation)]

/-- Mutation-only execution: one notification in each listed environment. -/
def mutationTicks (envs : List Env) : List (Env × Event) :=
  envs.map (fun e => (e, Event.mutation))

/-- Number of callbacks registered with `setTimeout` by the attempts of an
execution.  An attempt registers only the delayed retry of line 98, so this
counts the delayed re-schedules; a timer firing first removes the fired
callback from the pending list. -/
def retriesScheduled : State → List (Env × Event) → Nat
  | _, [] => 0
  | s, x :: xs =>
    (match x.2 with
      | Event.timer i => (fire x.1 i s).timers.length - (s.timers.eraseIdx i).length
      | _ => 0) + retriesScheduled (step s x) xs

/-- The quiescence measure: pending callbacks plus the retries still allowed. -/
def budget (s : State) : Nat :=
  s.timers.length + (RETRY_LIMIT - s.retries)

/-- A sequence of firings, each given by an environment and the position of
the callback that fires. -/
def fireAll (s : State) (fs : List (Env × Nat)) : State :=
  fs.foldl (fun st f => fire f.1 f.2 st) s

/-- Every firing of the sequence fires a callback that is pending at that
moment. -/
def allPending : State → List (Env × Nat) → Bool
  | _, [] => true
  | s, f :: fs => decide (f.2 < s.timers.length) && allPending (fire f.1 f.2 s) fs

/-- Home path with two tabs carrying the label, the second one selected. -/
def twoLabelled : Env :=
  ⟨"/home", [⟨some "フォロー中", false⟩, ⟨some "フォロー中", true⟩]⟩

/-- Home path with two selected tabs, the second one carrying the label. -/
def twoSelected : Env :=
  ⟨"/home", [⟨some "おすすめ", true⟩, ⟨some "フォロー中", true⟩]⟩

/-- The invariant carried along every execution: the settled generation never
exceeds the current one, no generation has seen two clicks, no click is stamped
with a generation still to come, and a click stamped with the current
generation means that generation is settled. -/
structure Inv (s : State) : Prop where
  settled_le : s.switchedGeneration ≤ s.pageGeneration
  once : ∀ E, clicksAt E s.trace ≤ 1
  future : ∀ E, s.pageGeneration < E → clicksAt E s.trace = 0
  unsettled : s.switchedGeneration ≠ s.pageGeneration → clicksAt s.pageGeneration s.trace = 0

/-- State of a generation polled by one chain after `k` absent attempts. -/
structure Polling (E : Int) (base k : Nat) (st : State) : Prop where
  current : st.pageGeneration = E
  unsettled : st.switchedGeneration ≠ E
  retries : st.retries = k
  pending : st.timers = pendingAfter E k
  attempts : attemptsAt E st.trace = base + k

/-! ## Basic facts -/

theorem clicksAt_nil (E : Int) : clicksAt E [] = 0 := rfl

theorem clicksAt_append (E : Int) (a b : List (Int × Effect)) :
    clicksAt E (a ++ b) = clicksAt E a + clicksAt E b := by
  simp [clicksAt, List.filter_append]

theorem clicksAt_readPath (E g : Int) : clicksAt E [(g, Effect.readPath)] = 0 := by
  simp [clicksAt, List.filter]

theorem clicksAt_querySelector (E g : Int) : clicksAt E [(g, Effect.querySelector)] = 0 := by
  simp [clicksAt, List.filter]

theorem clicksAt_querySelectorAll (E g : Int) :
    clicksAt E [(g, Effect.querySelectorAll)] = 0 := by
  simp [clicksAt, List.filter]

theorem clicksAt_click_same (E : Int) (i : Nat) : clicksAt E [(E, Effect.click i)] = 1 := by
  simp [clicksAt, List.filter]

theorem clicksAt_click_other (E g : Int) (i : Nat) (h : g ≠ E) :
    clicksAt E [(g, Effect.click i)] = 0 := by
  simp [clicksAt, List.filter, h]

theorem inv_blank : Inv blank := by
  constructor <;> simp [blank, clicksAt]

theorem inv_emit_readPath {s : State} (h : Inv s) : Inv (emit Effect.readPath s) := by
  obtain ⟨h1, h2, h3, h4⟩ := h
  constructor
  · simpa [emit] using h1
  · intro E; simpa [emit, clicksAt_append, clicksAt_readPath] using h2 E
  · intro E hE; simpa [emit, clicksAt_append, clicksAt_readPath] using h3 E hE
  · intro hne; simpa [emit, clicksAt_append, clicksAt_readPath] using h4 hne

theorem inv_emit_querySelector {s : State} (h : Inv s) : Inv (emit Effect.querySelector s) := by
  obtain ⟨h1, h2, h3, h4⟩ := h
  constructor
  · simpa [emit] using h1
  · intro E; simpa [emit, clicksAt_append, clicksAt_querySelector] using h2 E
  · intro E hE; simpa [emit, clicksAt_append, clicksAt_querySelector] using h3 E hE
  · intro hne; simpa [emit, clicksAt_append, clicksAt_querySelector] using h4 hne

theorem inv_emit_querySelectorAll {s : State} (h : Inv s) :
    Inv (emit Effect.querySelectorAll s) := by
  obtain ⟨h1, h2, h3, h4⟩ := h
  constructor
  · simpa [emit] using h1
  · intro E; simpa [emit, clicksAt_append, clicksAt_querySelectorAll] using h2 E
  · intro E hE; simpa [emit, clicksAt_append, clicksAt_querySelectorAll] using h3 E hE
  · intro hne; simpa [emit, clicksAt_append, clicksAt_querySelectorAll] using h4 hne

theorem inv_of_fields {s t : State} (h : Inv s)
    (hp : t.pageGeneration = s.pageGeneration)
    (hs : t.switchedGeneration = s.switchedGeneration)
    (ht : t.trace = s.trace) : Inv t := by
  obtain ⟨h1, h2, h3, h4⟩ := h
  constructor
  · rw [hp, hs]; exact h1
  · rw [ht]; exact h2
  · rw [ht, hp]; exact h3
  · rw [ht, hp, hs]; exact h4

theorem inv_settle {s : State} (h : Inv s) :
    Inv { s with switchedGeneration := s.pageGeneration } := by
  obtain ⟨_, h2, h3, _⟩ := h
  constructor
  · simp
  · exact h2
  · exact h3
  · intro hne; exact absurd rfl hne

theorem inv_click {s : State} (h : Inv s) (hne : s.switchedGeneration ≠ s.pageGeneration)
    (tab : Nat) :
    Inv { emit (Effect.click tab) s with switchedGeneration := s.pageGeneration } := by
  obtain ⟨_, h2, h3, h4⟩ := h
  constructor
  · simp [emit]
  · intro E
    by_cases hE : s.pageGeneration = E
    · subst hE
      simp [emit, clicksAt_append, clicksAt_click_same, h4 hne]
    · simpa [emit, clicksAt_append, clicksAt_click_other _ _ tab hE] using h2 E
  · intro E hE
    have hE2 : s.pageGeneration < E := by simpa [emit] using hE
    have hne2 : s.pageGeneration ≠ E := ne_of_lt hE2
    simpa [emit, clicksAt_append, clicksAt_click_other _ _ tab hne2] using h3 E hE2
  · intro hne2; exact absurd rfl hne2

theorem inv_startNewGeneration {s : State} (h : Inv s) (reason : String) :
    Inv (startNewGeneration reason s) := by
  obtain ⟨h1, h2, h3, _⟩ := h
  constructor
  · simp only [startNewGeneration, setTimeout]; omega
  · exact h2
  · intro E hE
    apply h3
    simp only [startNewGeneration, setTimeout] at hE; omega
  · intro _
    apply h3
    simp only [startNewGeneration, setTimeout]; omega

theorem inv_trySwitchFollowing {s : State} (h : Inv s) (env : Env) (gen : Int) :
    Inv (trySwitchFollowing env gen s) := by
  unfold trySwitchFollowing
  by_cases hg : gen = s.pageGeneration
  · subst hg
    have i1 := inv_emit_readPath h
    have i2 := inv_emit_querySelector i1
    have i3 := inv_emit_querySelectorAll i2
    simp only [ne_eq, not_true_eq_false, if_false]
    split
    · exact i1
    · split
      · exact i1
      · rename_i hns
        split
        · exact inv_settle i2
        · split
          · rename_i tab _
            exact inv_click i3 hns tab
          · split
            · exact inv_of_fields i3 rfl rfl rfl
            · exact inv_of_fields i3 rfl rfl rfl
  · simp only [ne_eq, hg, not_false_eq_true, if_true]
    exact h

theorem inv_onPageshow {s : State} (h : Inv s) (persisted : Bool) (navType : Option String) :
    Inv (onPageshow persisted navType s) := by
  unfold onPageshow
  split
  · exact inv_startNewGeneration h _
  · exact h

theorem inv_onMutation {s : State} (h : Inv s) (env : Env) : Inv (onMutation env s) := by
  unfold onMutation
  have i1 := inv_emit_readPath h
  have i2 := inv_emit_readPath i1
  simp only
  split
  · have i3 : Inv { emit Effect.readPath (emit Effect.readPath s) with
        lastPath := env.pathname } := inv_of_fields i2 rfl rfl rfl
    have i4 := inv_emit_readPath i3
    split
    · exact inv_startNewGeneration i4 _
    · exact i4
  · split
    · exact inv_startNewGeneration i2 _
    · exact i2

theorem inv_fire {s : State} (h : Inv s) (env : Env) (i : Nat) : Inv (fire env i s) := by
  unfold fire
  split
  · exact h
  · have i1 : Inv { s with timers := s.timers.eraseIdx i } := inv_of_fields h rfl rfl rfl
    simp only
    split
    · exact inv_trySwitchFollowing i1 env _
    · exact inv_trySwitchFollowing i1 env _

theorem inv_step {s : State} (h : Inv s) (x : Env × Event) : Inv (step s x) := by
  unfold step
  split
  · exact inv_onPageshow h _ _
  · exact inv_onMutation h _
  · exact inv_fire h _ _

theorem inv_run {s : State} (h : Inv s) (xs : List (Env × Event)) : Inv (run s xs) := by
  induction xs generalizing s with
  | nil => exact h
  | cons x xs ih => exact ih (inv_step h x)

theorem inv_init (env : Env) : Inv (init env) := by
  unfold init
  have i1 := inv_emit_readPath inv_blank
  simp only
  split
  · exact inv_of_fields (inv_emit_readPath (inv_startNewGeneration i1 _)) rfl rfl rfl
  · exact inv_of_fields (inv_emit_readPath i1) rfl rfl rfl

theorem trySwitchFollowing_pageGeneration (env : Env) (gen : Int) (s : State) :
    (trySwitchFollowing env gen s).pageGeneration = s.pageGeneration := by
  unfold trySwitchFollowing
  simp only [emit, setTimeout]
  repeat (first | rfl | split)

theorem fire_pageGeneration (env : Env) (i : Nat) (s : State) :
    (fire env i s).pageGeneration = s.pageGeneration := by
  unfold fire
  split
  · rfl
  · simp only
    split <;> rw [trySwitchFollowing_pageGeneration]

theorem startNewGeneration_pageGeneration (reason : String) (s : State) :
    (startNewGeneration reason s).pageGeneration = s.pageGeneration + 1 := rfl

theorem onPageshow_cases (persisted : Bool) (navType : Option String) (s : State) :
    onPageshow persisted navType s = s ∨
      onPageshow persisted navType s = startNewGeneration "reload" s := by
  unfold onPageshow
  split
  · exact Or.inr rfl
  · exact Or.inl rfl

theorem onMutation_cases (env : Env) (s : State) :
    (onMutation env s).pageGeneration = s.pageGeneration ∨
      ∃ s0 reason, s0.pageGeneration = s.pageGeneration ∧
        onMutation env s = startNewGeneration reason s0 := by
  unfold onMutation
  simp only
  split
  · split
    · refine Or.inr ⟨_, _, ?_, rfl⟩
      rfl
    · exact Or.inl rfl
  · split
    · refine Or.inr ⟨_, _, ?_, rfl⟩
      rfl
    · exact Or.inl rfl

theorem step_pageGeneration_le (s : State) (x : Env × Event) :
    s.pageGeneration ≤ (step s x).pageGeneration := by
  unfold step
  split
  · rcases onPageshow_cases _ _ s with h | h <;> rw [h]
    rw [startNewGeneration_pageGeneration]; omega
  · rcases onMutation_cases x.1 s with h | ⟨s0, r, h0, h⟩
    · rw [h]
    · rw [h, startNewGeneration_pageGeneration, h0]; omega
  · rw [fire_pageGeneration]

theorem run_pageGeneration_le (s : State) (xs : List (Env × Event)) :
    s.pageGeneration ≤ (run s xs).pageGeneration := by
  induction xs generalizing s with
  | nil => exact le_refl _
  | cons x xs ih => exact le_trans (step_pageGeneration_le s x) (ih (step s x))

theorem trySwitchFollowing_switchedGeneration (env : Env) (gen : Int) (s : State) :
    (trySwitchFollowing env gen s).switchedGeneration = s.switchedGeneration ∨
      (trySwitchFollowing env gen s).switchedGeneration = s.pageGeneration := by
  unfold trySwitchFollowing
  by_cases hg : gen = s.pageGeneration
  · subst hg
    simp only [emit, setTimeout, ne_eq, not_true_eq_false, if_false]
    repeat (first | exact Or.inl rfl | exact Or.inr rfl | split)
  · simp [hg]

theorem settled_le_trySwitchFollowing (env : Env) (gen : Int) (s : State)
    (h : s.switchedGeneration ≤ s.pageGeneration) :
    (trySwitchFollowing env gen s).switchedGeneration ≤
      (trySwitchFollowing env gen s).pageGeneration := by
  rw [trySwitchFollowing_pageGeneration]
  rcases trySwitchFollowing_switchedGeneration env gen s with h1 | h1 <;> rw [h1]
  exact h

theorem settled_le_startNewGeneration (reason : String) (s : State)
    (h : s.switchedGeneration ≤ s.pageGeneration) :
    (startNewGeneration reason s).switchedGeneration ≤
      (startNewGeneration reason s).pageGeneration := by
  simp only [startNewGeneration, setTimeout]; omega

theorem settled_le_onPageshow (persisted : Bool) (navType : Option String) (s : State)
    (h : s.switchedGeneration ≤ s.pageGeneration) :
    (onPageshow persisted navType s).switchedGeneration ≤
      (onPageshow persisted navType s).pageGeneration := by
  rcases onPageshow_cases persisted navType s with h1 | h1 <;> rw [h1]
  · exact h
  · exact settled_le_startNewGeneration _ s h

theorem settled_le_onMutation (env : Env) (s : State)
    (h : s.switchedGeneration ≤ s.pageGeneration) :
    (onMutation env s).switchedGeneration ≤ (onMutation env s).pageGeneration := by
  unfold onMutation
  simp only
  split
  · split
    · exact settled_le_startNewGeneration _ _ h
    · exact h
  · split
    · exact settled_le_startNewGeneration _ _ h
    · exact h

theorem settled_le_fire (env : Env) (i : Nat) (s : State)
    (h : s.switchedGeneration ≤ s.pageGeneration) :
    (fire env i s).switchedGeneration ≤ (fire env i s).pageGeneration := by
  unfold fire
  split
  · exact h
  · simp only
    split <;> exact settled_le_trySwitchFollowing _ _ _ h

/-- An attempt for the current, unsettled generation that finds the target
absent: three trace entries, `retries` plus one, and a retry callback exactly
when the old value of `retries` was below the ceiling. -/
theorem trySwitchFollowing_absent (env : Env) (s : State) (habs : Absent env)
    (hns : s.switchedGeneration ≠ s.pageGeneration) :
    trySwitchFollowing env s.pageGeneration s =
      { s with
        retries := s.retries + 1
        timers := if s.retries < RETRY_LIMIT then
            s.timers ++ [⟨Callback.retry s.pageGeneration, RETRY_INTERVAL⟩]
          else s.timers
        trace := s.trace ++ [(s.pageGeneration, Effect.readPath),
          (s.pageGeneration, Effect.querySelector),
          (s.pageGeneration, Effect.querySelectorAll)] } := by
  obtain ⟨h1, h2, h3⟩ := habs
  simp only [trySwitchFollowing, emit, setTimeout, h1, h2, h3, hns, ne_eq, not_true_eq_false,
    if_false, Bool.not_true, Bool.false_eq_true]
  split <;> simp

theorem polling_fire {E : Int} {base k : Nat} {st : State} (h : Polling E base k st)
    (hk : k ≤ RETRY_LIMIT) (env : Env) (habs : Absent env) :
    Polling E base (k + 1) (fire env 0 st) := by
  obtain ⟨h1, h2, h3, h4, h5⟩ := h
  subst h1
  have hcb : ∃ t, st.timers = [t] ∧
      (t.callback = Callback.deferred ∨ t.callback = Callback.retry st.pageGeneration) := by
    rw [h4]; unfold pendingAfter
    by_cases h0 : k = 0
    · rw [if_pos h0]; exact ⟨_, rfl, Or.inl rfl⟩
    · rw [if_neg h0, if_pos hk]; exact ⟨_, rfl, Or.inr rfl⟩
  obtain ⟨t, ht, hc⟩ := hcb
  have hfire : fire env 0 st =
      trySwitchFollowing env st.pageGeneration { st with timers := [] } := by
    unfold fire
    rw [ht]
    rcases hc with hc | hc <;> simp [hc]
  have key := trySwitchFollowing_absent env { st with timers := [] } habs h2
  simp only at key
  rw [hfire, key]
  constructor
  · rfl
  · exact h2
  · simp [h3]
  · subst h3
    unfold pendingAfter
    simp only [RETRY_LIMIT, RETRY_INTERVAL] at hk ⊢
    by_cases hlt : st.retries < 25
    · have : st.retries + 1 ≤ 25 := by omega
      simp [hlt, this]
    · have : ¬ st.retries + 1 ≤ 25 := by omega
      simp [hlt, this]
  · simp only [attemptsAt] at h5 ⊢
    rw [List.count_append, h5]
    simp [List.count_cons]
    omega

theorem polling_done {E : Int} {base k : Nat} {st : State} (h : Polling E base k st)
    (hk : RETRY_LIMIT < k) (env : Env) : fire env 0 st = st := by
  have ht : st.timers = [] := by
    rw [h.pending]; unfold pendingAfter
    have h0 : k ≠ 0 := by omega
    have h1 : ¬ k ≤ RETRY_LIMIT := by omega
    simp [h0, h1]
  unfold fire
  simp [ht]

theorem polling_run {E : Int} {base : Nat} (envs : List Env) (habs : ∀ e ∈ envs, Absent e)
    (k : Nat) (st : State) (hk : k ≤ RETRY_LIMIT + 1) (h : Polling E base k st) :
    Polling E base (min (k + envs.length) (RETRY_LIMIT + 1)) (run st (timerTicks envs)) := by
  induction envs generalizing k st with
  | nil => simpa [timerTicks, run, Nat.min_eq_left hk] using h
  | cons e rest ih =>
    have he : Absent e := habs e (List.mem_cons_self _ _)
    have hrest : ∀ x ∈ rest, Absent x := fun x hx => habs x (List.mem_cons_of_mem _ hx)
    have hrun : run st (timerTicks (e :: rest)) = run (fire e 0 st) (timerTicks rest) := rfl
    rw [hrun]
    by_cases hlt : k ≤ RETRY_LIMIT
    · have h2 := ih hrest (k + 1) (fire e 0 st) (by omega) (polling_fire h hlt e he)
      have hlen : k + (e :: rest).length = k + 1 + rest.length := by
        simp only [List.length_cons]; omega
      rw [hlen]; exact h2
    · have hk2 : RETRY_LIMIT < k := by omega
      rw [polling_done h hk2 e]
      have h2 := ih hrest k st hk h
      have e1 : min (k + (e :: rest).length) (RETRY_LIMIT + 1) = RETRY_LIMIT + 1 := by
        simp only [List.length_cons]; omega
      have e2 : min (k + rest.length) (RETRY_LIMIT + 1) = RETRY_LIMIT + 1 := by omega
      rw [e1]; rw [e2] at h2; exact h2

theorem polling_start (reason : String) (s0 : State) (hidle : s0.timers = [])
    (hle : s0.switchedGeneration ≤ s0.pageGeneration) :
    Polling (s0.pageGeneration + 1) (attemptsAt (s0.pageGeneration + 1) s0.trace) 0
      (startNewGeneration reason s0) := by
  constructor
  · rfl
  · simp only [startNewGeneration, setTimeout]; omega
  · rfl
  · simp [startNewGeneration, setTimeout, hidle, pendingAfter]
  · rfl

theorem get?_append_last {α : Type} (l : List α) (x : α) :
    (l ++ [x]).get? l.length = some x := by
  induction l with
  | nil => rfl
  | cons a l ih => simp

theorem eraseIdx_append_last {α : Type} (l : List α) (x : α) :
    (l ++ [x]).eraseIdx l.length = l := by
  induction l with
  | nil => rfl
  | cons a l ih => simpa using ih

/-- Firing the deferred callback that `startNewGeneration` has just appended:
it runs an attempt for the generation current at that moment, with the older
callbacks still pending. -/
theorem fire_new_deferred (env : Env) (reason : String) (s : State) :
    fire env s.timers.length (startNewGeneration reason s) =
      trySwitchFollowing env (s.pageGeneration + 1)
        { s with pageGeneration := s.pageGeneration + 1, retries := 0 } := by
  unfold fire
  simp only [startNewGeneration, setTimeout, get?_append_last, eraseIdx_append_last]

/-- An attempt for the current, unsettled generation on the home path that
finds the tab unselected: it clicks the tab and settles the generation. -/
theorem trySwitchFollowing_found (env : Env) (s : State) (tab : Nat)
    (hhome : isHome env = true) (hsel : isFollowingSelected env = false)
    (hfound : findFollowingTab env = some tab)
    (hns : s.switchedGeneration ≠ s.pageGeneration) :
    trySwitchFollowing env s.pageGeneration s =
      { s with
        switchedGeneration := s.pageGeneration
        trace := s.trace ++ [(s.pageGeneration, Effect.readPath),
          (s.pageGeneration, Effect.querySelector),
          (s.pageGeneration, Effect.querySelectorAll),
          (s.pageGeneration, Effect.click tab)] } := by
  simp [trySwitchFollowing, emit, hhome, hsel, hfound, hns]

/-- What an attempt does to `retries` and to the pending callbacks: either it
registers nothing and `retries` stays or grows by one, or it registers one
retry, which requires the old `retries` to be below the ceiling and adds one. -/
theorem trySwitchFollowing_retry_cases (env : Env) (gen : Int) (s : State) :
    ((trySwitchFollowing env gen s).timers = s.timers ∧
      ((trySwitchFollowing env gen s).retries = s.retries ∨
        (trySwitchFollowing env gen s).retries = s.retries + 1)) ∨
    ((trySwitchFollowing env gen s).timers =
        s.timers ++ [⟨Callback.retry gen, RETRY_INTERVAL⟩] ∧
      s.retries < RETRY_LIMIT ∧
      (trySwitchFollowing env gen s).retries = s.retries + 1) := by
  unfold trySwitchFollowing
  simp only [emit, setTimeout]
  split
  · exact Or.inl ⟨rfl, Or.inl rfl⟩
  · split
    · exact Or.inl ⟨rfl, Or.inl rfl⟩
    · split
      · exact Or.inl ⟨rfl, Or.inl rfl⟩
      · split
        · exact Or.inl ⟨rfl, Or.inl rfl⟩
        · split
          · exact Or.inl ⟨rfl, Or.inl rfl⟩
          · split
            · rename_i h
              exact Or.inr ⟨rfl, h, rfl⟩
            · exact Or.inl ⟨rfl, Or.inr rfl⟩

theorem trySwitchFollowing_lastPath (env : Env) (gen : Int) (s : State) :
    (trySwitchFollowing env gen s).lastPath = s.lastPath := by
  unfold trySwitchFollowing
  simp only [emit, setTimeout]
  repeat (first | rfl | split)

theorem fire_lastPath (env : Env) (i : Nat) (s : State) :
    (fire env i s).lastPath = s.lastPath := by
  unfold fire
  split
  · rfl
  · simp only
    split <;> rw [trySwitchFollowing_lastPath]

theorem onPageshow_lastPath (persisted : Bool) (navType : Option String) (s : State) :
    (onPageshow persisted navType s).lastPath = s.lastPath := by
  rcases onPageshow_cases persisted navType s with h | h <;> rw [h]
  rfl

/-- A mutation notification that begins no generation keeps `retries`. -/
theorem onMutation_retries (env : Env) (s : State)
    (h : (onMutation env s).pageGeneration = s.pageGeneration) :
    (onMutation env s).retries = s.retries := by
  unfold onMutation at h ⊢
  simp only [emit, startNewGeneration, setTimeout] at h ⊢
  by_cases h1 : env.pathname ≠ s.lastPath
  · rw [if_pos h1] at h ⊢
    by_cases h2 : isHome env = true
    · rw [if_pos h2] at h; simp at h
    · rw [if_neg h2]
  · rw [if_neg h1] at h ⊢
    by_cases h2 : (isHome env && decide (s.switchedGeneration ≠ s.pageGeneration)) = true
    · rw [if_pos h2] at h; simp at h
    · rw [if_neg h2]

/-- A `pageshow` event that begins no generation changes nothing. -/
theorem onPageshow_same (persisted : Bool) (navType : Option String) (s : State)
    (h : (onPageshow persisted navType s).pageGeneration = s.pageGeneration) :
    onPageshow persisted navType s = s := by
  rcases onPageshow_cases persisted navType s with h1 | h1
  · exact h1
  · rw [h1, startNewGeneration_pageGeneration] at h; omega

/-- What a timer firing does to `retries` and to the pending callbacks. -/
theorem fire_retry_cases (env : Env) (i : Nat) (s : State) :
    ((fire env i s).timers.length = (s.timers.eraseIdx i).length ∧
      ((fire env i s).retries = s.retries ∨ (fire env i s).retries = s.retries + 1)) ∨
    ((fire env i s).timers.length = (s.timers.eraseIdx i).length + 1 ∧
      s.retries < RETRY_LIMIT ∧ (fire env i s).retries = s.retries + 1) := by
  unfold fire
  split
  · rename_i hnone
    have : s.timers.length ≤ i := by
      rw [List.get?_eq_none] at hnone; exact hnone
    rw [List.eraseIdx_of_length_le this]
    exact Or.inl ⟨rfl, Or.inl rfl⟩
  · simp only
    split
    · rcases trySwitchFollowing_retry_cases env s.pageGeneration
        { s with timers := s.timers.eraseIdx i } with ⟨h1, h2⟩ | ⟨h1, h2, h3⟩
      · exact Or.inl ⟨by rw [h1], h2⟩
      · exact Or.inr ⟨by rw [h1]; simp, h2, h3⟩
    · rename_i gen _
      rcases trySwitchFollowing_retry_cases env gen
        { s with timers := s.timers.eraseIdx i } with ⟨h1, h2⟩ | ⟨h1, h2, h3⟩
      · exact Or.inl ⟨by rw [h1], h2⟩
      · exact Or.inr ⟨by rw [h1]; simp, h2, h3⟩

/-- A turn of the event loop that lowers `retries` is a call of
`startNewGeneration`: the generation grows by one and `retries` is 0. -/
theorem step_retries_reset (s : State) (x : Env × Event)
    (h : (step s x).retries < s.retries) :
    (step s x).pageGeneration = s.pageGeneration + 1 ∧ (step s x).retries = 0 := by
  obtain ⟨env, ev⟩ := x
  cases ev with
  | pageshow p n =>
    have hs : step s (env, Event.pageshow p n) = onPageshow p n s := rfl
    rw [hs] at h ⊢
    rcases onPageshow_cases p n s with h1 | h1
    · rw [h1] at h; omega
    · rw [h1]; exact ⟨rfl, rfl⟩
  | mutation =>
    have hs : step s (env, Event.mutation) = onMutation env s := rfl
    rw [hs] at h ⊢
    rcases onMutation_cases env s with h1 | ⟨s0, r, h0, h1⟩
    · rw [onMutation_retries env s h1] at h; omega
    · rw [h1]
      exact ⟨by rw [startNewGeneration_pageGeneration, h0], rfl⟩
  | timer i =>
    have hs : step s (env, Event.timer i) = fire env i s := rfl
    rw [hs] at h ⊢
    rcases fire_retry_cases env i s with ⟨_, h2 | h2⟩ | ⟨_, _, h2⟩ <;> omega

/-- A turn of the event loop that keeps the generation does not lower
`retries`. -/
theorem step_retries_le (s : State) (x : Env × Event)
    (h : (step s x).pageGeneration = s.pageGeneration) :
    s.retries ≤ (step s x).retries := by
  by_contra hlt
  have := step_retries_reset s x (by omega)
  omega

theorem run_retries_le (s : State) (xs : List (Env × Event))
    (h : (run s xs).pageGeneration = s.pageGeneration) :
    s.retries ≤ (run s xs).retries := by
  induction xs generalizing s with
  | nil => exact le_refl _
  | cons x xs ih =>
    have h1 := step_pageGeneration_le s x
    have h2 := run_pageGeneration_le (step s x) xs
    have hrun : run s (x :: xs) = run (step s x) xs := rfl
    rw [hrun] at h ⊢
    have h3 : (step s x).pageGeneration = s.pageGeneration := by omega
    exact le_trans (step_retries_le s x h3) (ih (step s x) (by omega))

/-- A mutation notification with the path equal to `lastPath` while the current
generation is settled: two path reads and nothing else. -/
theorem onMutation_settled (env : Env) (s : State) (hroute : env.pathname = s.lastPath)
    (hset : s.switchedGeneration = s.pageGeneration) :
    onMutation env s =
      { s with trace := s.trace ++ [(s.pageGeneration, Effect.readPath),
          (s.pageGeneration, Effect.readPath)] } := by
  simp [onMutation, emit, hroute, hset]

/-- An attempt for the current generation when that generation is settled: one
path read and nothing else. -/
theorem trySwitchFollowing_settled (env : Env) (s : State)
    (hset : s.switchedGeneration = s.pageGeneration) :
    trySwitchFollowing env s.pageGeneration s = emit Effect.readPath s := by
  unfold trySwitchFollowing
  simp only [ne_eq, not_true_eq_false, if_false, emit, hset, if_true]
  split <;> rfl

theorem run_mutations_settled (envs : List Env) (s : State)
    (hset : s.switchedGeneration = s.pageGeneration)
    (hroute : ∀ e ∈ envs, e.pathname = s.lastPath) :
    run s (mutationTicks envs) =
      { s with trace := s.trace ++
          List.replicate (2 * envs.length) (s.pageGeneration, Effect.readPath) } := by
  induction envs generalizing s with
  | nil => simp [mutationTicks, run]
  | cons e rest ih =>
    have hrun : run s (mutationTicks (e :: rest)) =
        run (onMutation e s) (mutationTicks rest) := rfl
    rw [hrun, onMutation_settled e s (hroute e (List.mem_cons_self _ _)) hset]
    have h2 := ih { s with trace := s.trace ++ [(s.pageGeneration, Effect.readPath),
      (s.pageGeneration, Effect.readPath)] } hset
      (fun x hx => hroute x (List.mem_cons_of_mem _ hx))
    rw [h2]
    have hlen : 2 * (e :: rest).length = 2 * rest.length + 1 + 1 := by
      simp only [List.length_cons]; omega
    rw [hlen, List.replicate_succ, List.replicate_succ]
    simp

theorem findFollowingTabFrom_shift (tabs : List Tab) (k : Nat) :
    findFollowingTabFrom tabs k = (findFollowingTabFrom tabs 0).map (fun i => i + k) := by
  induction tabs generalizing k with
  | nil => rfl
  | cons a rest ih =>
    unfold findFollowingTabFrom
    split
    · simp
    · rw [ih (k + 1), ih (0 + 1), Option.map_map]
      congr 1
      funext i
      simp only [Function.comp]
      omega

theorem not_selected_of_filter (tabs : List Tab)
    (h : (tabs.filter (fun t => t.selected)).length = 0) :
    ∀ t ∈ tabs, t.selected = false := by
  intro t ht
  have h2 := List.filter_eq_nil_iff.mp (List.length_eq_zero.mp h) t ht
  simpa using h2

theorem not_labelled_of_filter (tabs : List Tab)
    (h : (tabs.filter hasFollowingLabel).length = 0) :
    ∀ t ∈ tabs, hasFollowingLabel t = false := by
  intro t ht
  have h2 := List.filter_eq_nil_iff.mp (List.length_eq_zero.mp h) t ht
  simpa using h2

/-- With at most one selected tab and at most one labelled tab, the selected
tab carries the label exactly when the labelled tab is selected. -/
theorem locator_iff (p : String) (tabs : List Tab)
    (hsel : (tabs.filter (fun t => t.selected)).length ≤ 1)
    (hlab : (tabs.filter hasFollowingLabel).length ≤ 1) :
    isFollowingSelected ⟨p, tabs⟩ = true ↔
      ∃ i t, findFollowingTab ⟨p, tabs⟩ = some i ∧ tabs.get? i = some t ∧
        t.selected = true := by
  induction tabs with
  | nil => simp [isFollowingSelected, getSelectedTab, findFollowingTab, findFollowingTabFrom]
  | cons a rest ih =>
    cases ha : a.selected <;> cases hl : hasFollowingLabel a
    · -- neither selected nor labelled: both sides look at the rest
      have hsel2 : (rest.filter (fun t => t.selected)).length ≤ 1 := by
        simpa [List.filter_cons, ha] using hsel
      have hlab2 : (rest.filter hasFollowingLabel).length ≤ 1 := by
        simpa [List.filter_cons, hl] using hlab
      have ih2 := ih hsel2 hlab2
      have e1 : isFollowingSelected ⟨p, a :: rest⟩ = isFollowingSelected ⟨p, rest⟩ := by
        simp [isFollowingSelected, getSelectedTab, List.find?_cons, ha]
      have e2 : findFollowingTab ⟨p, a :: rest⟩ =
          (findFollowingTab ⟨p, rest⟩).map (fun i => i + 1) := by
        simp only [findFollowingTab, findFollowingTabFrom, hl]
        exact findFollowingTabFrom_shift rest (0 + 1)
      rw [e1, ih2, e2]
      constructor
      · rintro ⟨i, t, h1, h2, h3⟩
        exact ⟨i + 1, t, by rw [h1]; rfl, by simpa using h2, h3⟩
      · rintro ⟨i, t, h1, h2, h3⟩
        cases hf : findFollowingTab ⟨p, rest⟩ with
        | none => rw [hf] at h1; simp at h1
        | some j =>
          rw [hf] at h1
          simp only [Option.map_some', Option.some.injEq] at h1
          subst h1
          exact ⟨j, t, rfl, by simpa using h2, h3⟩
    · -- labelled but not selected: no other tab is labelled
      have hlab2 : (rest.filter hasFollowingLabel).length = 0 := by
        have : (rest.filter hasFollowingLabel).length + 1 ≤ 1 := by
          simpa [List.filter_cons, hl] using hlab
        omega
      have hnone := not_labelled_of_filter rest hlab2
      have e1 : isFollowingSelected ⟨p, a :: rest⟩ = false := by
        simp only [isFollowingSelected, getSelectedTab, List.find?_cons, ha]
        cases hf : rest.find? (fun t => t.selected) with
        | none => rfl
        | some t => exact hnone t (List.mem_of_find?_eq_some hf)
      have e2 : findFollowingTab ⟨p, a :: rest⟩ = some 0 := by
        simp [findFollowingTab, findFollowingTabFrom, hl]
      rw [e1, e2]
      constructor
      · intro h; exact absurd h (by simp)
      · rintro ⟨i, t, h1, h2, h3⟩
        simp only [Option.some.injEq] at h1
        subst h1
        simp only [List.get?_cons_zero, Option.some.injEq] at h2
        subst h2
        rw [ha] at h3; exact absurd h3 (by simp)
    · -- selected but not labelled: no other tab is selected
      have hsel2 : (rest.filter (fun t => t.selected)).length = 0 := by
        have : (rest.filter (fun t => t.selected)).length + 1 ≤ 1 := by
          simpa [List.filter_cons, ha] using hsel
        omega
      have hnone := not_selected_of_filter rest hsel2
      have e1 : isFollowingSelected ⟨p, a :: rest⟩ = false := by
        simp [isFollowingSelected, getSelectedTab, List.find?_cons, ha, hl]
      have e2 : findFollowingTab ⟨p, a :: rest⟩ =
          (findFollowingTab ⟨p, rest⟩).map (fun i => i + 1) := by
        simp only [findFollowingTab, findFollowingTabFrom, hl]
        exact findFollowingTabFrom_shift rest (0 + 1)
      rw [e1, e2]
      constructor
      · intro h; exact absurd h (by simp)
      · rintro ⟨i, t, h1, h2, h3⟩
        cases hf : findFollowingTab ⟨p, rest⟩ with
        | none => rw [hf] at h1; simp at h1
        | some j =>
          rw [hf] at h1
          simp only [Option.map_some', Option.some.injEq] at h1
          subst h1
          have h4 : rest.get? j = some t := by simpa using h2
          rw [hnone t (List.get?_mem h4)] at h3
          exact absurd h3 (by simp)
    · -- selected and labelled: the first tab answers both questions
      have e1 : isFollowingSelected ⟨p, a :: rest⟩ = true := by
        simp [isFollowingSelected, getSelectedTab, List.find?_cons, ha, hl]
      have e2 : findFollowingTab ⟨p, a :: rest⟩ = some 0 := by
        simp [findFollowingTab, findFollowingTabFrom, hl]
      rw [e1, e2]
      simp only [true_iff]
      exact ⟨0, a, rfl, rfl, ha⟩

/-- Over an execution that stays in one generation, the retries registered
fit in what is left of the ceiling. -/
theorem retriesScheduled_le (xs : List (Env × Event)) (s : State)
    (h : (run s xs).pageGeneration = s.pageGeneration) :
    retriesScheduled s xs ≤ RETRY_LIMIT - s.retries := by
  induction xs generalizing s with
  | nil => simp [retriesScheduled]
  | cons x xs ih =>
    have h1 := step_pageGeneration_le s x
    have h2 := run_pageGeneration_le (step s x) xs
    have hrun : run s (x :: xs) = run (step s x) xs := rfl
    rw [hrun] at h
    have h3 : (step s x).pageGeneration = s.pageGeneration := by omega
    have h4 := ih (step s x) (by omega)
    have h5 := step_retries_le s x h3
    obtain ⟨env, ev⟩ := x
    cases ev with
    | pageshow p n =>
      simp only [retriesScheduled]
      omega
    | mutation =>
      simp only [retriesScheduled]
      omega
    | timer i =>
      have hs : step s (env, Event.timer i) = fire env i s := rfl
      rw [hs] at h4 h5
      have hdef : retriesScheduled s ((env, Event.timer i) :: xs) =
          (fire env i s).timers.length - (s.timers.eraseIdx i).length +
            retriesScheduled (fire env i s) xs := rfl
      rw [hdef]
      rcases fire_retry_cases env i s with ⟨h6, _⟩ | ⟨h6, h7, h8⟩
      · omega
      · omega

theorem fire_budget_lt (env : Env) (i : Nat) (s : State) (h : i < s.timers.length) :
    budget (fire env i s) < budget s := by
  have hlen := List.length_eraseIdx_of_lt h
  unfold budget
  rcases fire_retry_cases env i s with ⟨h1, h2 | h2⟩ | ⟨h1, h2, h3⟩ <;> omega

theorem fire_idle (env : Env) (i : Nat) (s : State) (h : s.timers = []) :
    fire env i s = s := by
  unfold fire
  simp [h]

theorem allPending_length (fs : List (Env × Nat)) (s : State)
    (h : allPending s fs = true) : fs.length + budget (fireAll s fs) ≤ budget s := by
  induction fs generalizing s with
  | nil => simp [fireAll]
  | cons f fs ih =>
    simp only [allPending, Bool.and_eq_true, decide_eq_true_eq] at h
    have h1 := fire_budget_lt f.1 f.2 s h.1
    have h2 := ih (fire f.1 f.2 s) h.2
    have hf : fireAll s (f :: fs) = fireAll (fire f.1 f.2 s) fs := rfl
    rw [hf]
    simp only [List.length_cons]
    omega

theorem timerTicks_idle (envs : List Env) (s : State) (h : s.timers = []) :
    run s (timerTicks envs) = s := by
  induction envs with
  | nil => rfl
  | cons e rest ih =>
    have hrun : run s (timerTicks (e :: rest)) = run (fire e 0 s) (timerTicks rest) := rfl
    rw [hrun, fire_idle e 0 s h, ih]

theorem timerTicks_quiescent (envs : List Env) (s : State)
    (h : budget s ≤ envs.length) : (run s (timerTicks envs)).timers = [] := by
  induction envs generalizing s with
  | nil =>
    have : s.timers.length = 0 := by
      unfold budget at h; simp only [List.length_nil] at h; omega
    simpa [timerTicks, run] using List.length_eq_zero.mp this
  | cons e rest ih =>
    by_cases hid : s.timers = []
    · rw [timerTicks_idle _ s hid]; exact hid
    · have hrun : run s (timerTicks (e :: rest)) =
          run (fire e 0 s) (timerTicks rest) := rfl
      rw [hrun]
      apply ih
      simp only [List.length_cons] at h
      have hpos : 0 < s.timers.length := List.length_pos.mpr hid
      have := fire_budget_lt e 0 s hpos
      omega

/-! ## Claims -/

/-- C1 (idempotence per epoch).  In every execution of the script, started in
any environment and driven by any sequence of `pageshow` events, mutation
notifications and timer firings, each in an arbitrary environment, and for every
generation value `E`, at most one `click()` is performed while
`pageGeneration = E`. -/
theorem C1_click_at_most_once_per_generation (env0 : Env) (xs : List (Env × Event))
    (E : Int) : clicksAt E (run (init env0) xs).trace ≤ 1 :=
  (inv_run (inv_init env0) xs).once E

/-- C5 (already-selected short-circuit).  When an attempt runs for the current
generation on the home path, that generation is not settled and the selected
tab carries the label, the attempt settles the generation and does nothing
else: the trace gains one path read and the `querySelector` of
`getSelectedTab`, so there is no `querySelectorAll` and no click, and
`retries`, the pending callbacks and all other variables are unchanged. -/
theorem C5_already_selected_short_circuit (env : Env) (gen : Int) (s : State)
    (hcur : gen = s.pageGeneration) (hhome : isHome env = true)
    (hns : s.switchedGeneration ≠ gen) (hsel : isFollowingSelected env = true) :
    trySwitchFollowing env gen s =
      { s with
        switchedGeneration := gen
        trace := s.trace ++ [(s.pageGeneration, Effect.readPath),
          (s.pageGeneration, Effect.querySelector)] } := by
  subst hcur
  simp [trySwitchFollowing, emit, hhome, hns, hsel]

/-- C6 (rebuild re-detection).  On a mutation notification with the path equal
to `lastPath`, on the home path and with the current generation not settled,
`pageGeneration` grows by exactly one, `retries` becomes 0 and exactly one
callback, a deferred attempt with delay 0, joins the pending callbacks;
`switchedGeneration` and `lastPath` stay as they were. -/
theorem C6_rebuild_redetection (env : Env) (s : State)
    (hpath : env.pathname = s.lastPath) (hhome : isHome env = true)
    (hns : s.switchedGeneration ≠ s.pageGeneration) :
    (onMutation env s).pageGeneration = s.pageGeneration + 1 ∧
    (onMutation env s).retries = 0 ∧
    (onMutation env s).timers = s.timers ++ [⟨Callback.deferred, 0⟩] ∧
    (onMutation env s).switchedGeneration = s.switchedGeneration ∧
    (onMutation env s).lastPath = s.lastPath := by
  simp [onMutation, emit, startNewGeneration, setTimeout, hpath, hhome, hns]

/-- C7 (route-gated reconciliation).  On a mutation notification while the
path is not the home path, whether or not it differs from `lastPath`,
`pageGeneration`, `switchedGeneration`, `retries` and the pending callbacks are
unchanged. -/
theorem C7_route_gated (env : Env) (s : State) (hhome : isHome env = false) :
    (onMutation env s).pageGeneration = s.pageGeneration ∧
    (onMutation env s).switchedGeneration = s.switchedGeneration ∧
    (onMutation env s).retries = s.retries ∧
    (onMutation env s).timers = s.timers := by
  unfold onMutation
  simp only [hhome, emit]
  split <;> simp

/-- C8 (settled generation never exceeds the current one).  The inequality
`switchedGeneration ≤ pageGeneration` holds for the initial values -1 and 0,
is preserved by `startNewGeneration`, by `trySwitchFollowing` with any argument,
by the `pageshow` listener, by the mutation callback and by any timer firing,
and therefore holds in every state an execution reaches. -/
theorem C8_settled_le_current :
    (blank.switchedGeneration = -1 ∧ blank.pageGeneration = 0) ∧
    (∀ reason s, s.switchedGeneration ≤ s.pageGeneration →
      (startNewGeneration reason s).switchedGeneration ≤
        (startNewGeneration reason s).pageGeneration) ∧
    (∀ env gen s, s.switchedGeneration ≤ s.pageGeneration →
      (trySwitchFollowing env gen s).switchedGeneration ≤
        (trySwitchFollowing env gen s).pageGeneration) ∧
    (∀ persisted navType s, s.switchedGeneration ≤ s.pageGeneration →
      (onPageshow persisted navType s).switchedGeneration ≤
        (onPageshow persisted navType s).pageGeneration) ∧
    (∀ env s, s.switchedGeneration ≤ s.pageGeneration →
      (onMutation env s).switchedGeneration ≤ (onMutation env s).pageGeneration) ∧
    (∀ env i s, s.switchedGeneration ≤ s.pageGeneration →
      (fire env i s).switchedGeneration ≤ (fire env i s).pageGeneration) ∧
    (∀ env0 xs, (run (init env0) xs).switchedGeneration ≤
      (run (init env0) xs).pageGeneration) :=
  ⟨⟨rfl, rfl⟩, settled_le_startNewGeneration, settled_le_trySwitchFollowing,
    settled_le_onPageshow, settled_le_onMutation, settled_le_fire,
    fun env0 xs => (inv_run (inv_init env0) xs).settled_le⟩

/-- C9 (effects of `startNewGeneration`).  Every call, in any state and for any
reason, adds exactly one to `pageGeneration`, sets `retries` to 0, appends
exactly one deferred callback with delay 0 to the pending callbacks and leaves
`switchedGeneration`, `lastPath` and the trace as they were (no attempt runs
inside the call).  No other operation changes `pageGeneration`: an attempt and a
timer firing keep it, the `pageshow` listener and the mutation callback change
it only through a call of `startNewGeneration`.  Hence generation values only
grow: after the call no execution ever returns to the old value or below. -/
theorem C9_startNewGeneration_effects (reason : String) (s : State) :
    startNewGeneration reason s =
      { s with
        pageGeneration := s.pageGeneration + 1
        retries := 0
        timers := s.timers ++ [⟨Callback.deferred, 0⟩] } ∧
    (∀ env gen, (trySwitchFollowing env gen s).pageGeneration = s.pageGeneration) ∧
    (∀ env i, (fire env i s).pageGeneration = s.pageGeneration) ∧
    (∀ persisted navType, onPageshow persisted navType s = s ∨
      onPageshow persisted navType s = startNewGeneration "reload" s) ∧
    (∀ env, (onMutation env s).pageGeneration = s.pageGeneration ∨
      ∃ s0 r, s0.pageGeneration = s.pageGeneration ∧
        onMutation env s = startNewGeneration r s0) ∧
    (∀ xs, s.pageGeneration < (run (startNewGeneration reason s) xs).pageGeneration) := by
  refine ⟨rfl, fun env gen => trySwitchFollowing_pageGeneration env gen s,
    fun env i => fire_pageGeneration env i s, fun p n => onPageshow_cases p n s,
    fun env => onMutation_cases env s, fun xs => ?_⟩
  have h := run_pageGeneration_le (startNewGeneration reason s) xs
  rw [startNewGeneration_pageGeneration] at h
  omega

/-- Witness of C5: the first attempt of generation 1 on a home page whose
"Following" tab is already selected. -/
theorem C5_already_selected_short_circuit_witness :
    (trySwitchFollowing homeFollowing 1 (init homeFollowing)).switchedGeneration = 1 ∧
    (trySwitchFollowing homeFollowing 1 (init homeFollowing)).timers =
      (init homeFollowing).timers :=
  have h := C5_already_selected_short_circuit homeFollowing 1 (init homeFollowing)
    (by decide) (by decide) (by decide) (by decide)
  ⟨by rw [h], by rw [h]⟩

/-- Witness of C6: a mutation notification on the home path right after the
script started there. -/
theorem C6_rebuild_redetection_witness :
    (onMutation homeEmpty (init homeEmpty)).pageGeneration = 1 + 1 ∧
    (onMutation homeEmpty (init homeEmpty)).retries = 0 :=
  have h := C6_rebuild_redetection homeEmpty (init homeEmpty)
    (by decide) (by decide) (by decide)
  ⟨h.1, h.2.1⟩

/-- Witness of C7: a mutation notification after the page has moved from the
home path to another path. -/
theorem C7_route_gated_witness :
    (onMutation explore (init homeEmpty)).pageGeneration = (init homeEmpty).pageGeneration ∧
    (onMutation explore (init homeEmpty)).timers = (init homeEmpty).timers :=
  have h := C7_route_gated explore (init homeEmpty) (by decide)
  ⟨h.1, h.2.2.2⟩

/-- C3 as stated fails: started on a home page that never shows the tab, after
25 attempts a retry is still pending, and it runs as a 26th attempt. -/
theorem C3_counterexample :
    attemptsAt 1 (run (init homeEmpty) (timerTicks (List.replicate 25 homeEmpty))).trace = 25 ∧
    (run (init homeEmpty) (timerTicks (List.replicate 25 homeEmpty))).timers =
      [⟨Callback.retry 1, 300⟩] ∧
    attemptsAt 1 (run (init homeEmpty) (timerTicks (List.replicate 26 homeEmpty))).trace = 26 := by
  decide

/-- C3 amended (bounded retry).  Let a generation `E` be created by
`startNewGeneration` in a state with nothing pending (and, as in every
reachable state, `switchedGeneration ≤ pageGeneration`), and let only timers
fire afterwards, each time on the home path with the target neither selected nor
found.  Then after `n` firings `min n (RETRY_LIMIT + 1)` attempts have run for
`E` and `retries` has that value; while `1 ≤ n ≤ RETRY_LIMIT` exactly one retry
of `E` is pending; from `n = RETRY_LIMIT + 1` on nothing is pending.  So exactly
`RETRY_LIMIT + 1 = 26` attempts run, the first one and `RETRY_LIMIT` retries. -/
theorem C3_bounded_retry (reason : String) (s0 : State) (envs : List Env)
    (hidle : s0.timers = []) (hle : s0.switchedGeneration ≤ s0.pageGeneration)
    (habs : ∀ e ∈ envs, Absent e) :
    (run (startNewGeneration reason s0) (timerTicks envs)).pageGeneration =
      s0.pageGeneration + 1 ∧
    attemptsAt (s0.pageGeneration + 1)
        (run (startNewGeneration reason s0) (timerTicks envs)).trace =
      attemptsAt (s0.pageGeneration + 1) s0.trace + min envs.length (RETRY_LIMIT + 1) ∧
    (run (startNewGeneration reason s0) (timerTicks envs)).retries =
      min envs.length (RETRY_LIMIT + 1) ∧
    (1 ≤ envs.length → envs.length ≤ RETRY_LIMIT →
      (run (startNewGeneration reason s0) (timerTicks envs)).timers =
        [⟨Callback.retry (s0.pageGeneration + 1), RETRY_INTERVAL⟩]) ∧
    (RETRY_LIMIT + 1 ≤ envs.length →
      (run (startNewGeneration reason s0) (timerTicks envs)).timers = []) := by
  have h := polling_run envs habs 0 (startNewGeneration reason s0) (by omega)
    (polling_start reason s0 hidle hle)
  rw [Nat.zero_add] at h
  obtain ⟨h1, _, h3, h4, h5⟩ := h
  refine ⟨h1, h5, h3, ?_, ?_⟩
  · intro hpos hlim
    rw [h4, Nat.min_eq_left (by omega)]
    unfold pendingAfter
    rw [if_neg (by omega), if_pos hlim]
  · intro hlim
    rw [h4, Nat.min_eq_right hlim]
    unfold pendingAfter
    rw [if_neg (by simp), if_neg (by omega)]

/-- Witness of C3: thirty timer ticks on a home page that never shows the tab,
after the first generation was created: 26 attempts, then nothing pending. -/
theorem C3_bounded_retry_witness :
    (run (startNewGeneration "initial-load" blank)
        (timerTicks (List.replicate 30 homeEmpty))).retries = min 30 (RETRY_LIMIT + 1) ∧
    (run (startNewGeneration "initial-load" blank)
        (timerTicks (List.replicate 30 homeEmpty))).timers = [] :=
  have h := C3_bounded_retry "initial-load" blank (List.replicate 30 homeEmpty) rfl
    (by decide)
    (fun e he => by rw [List.eq_of_mem_replicate he]; exact ⟨by decide, by decide, by decide⟩)
  ⟨h.2.2.1, h.2.2.2.2 (by decide)⟩

/-- C4 at its failing input.  Generation 1 is settled on the home path
(`lastPath` is the home path, nothing is pending); the tab bar is rebuilt in
place so that "Following" is present at position 1 but no longer selected.  The
next mutation notification reads the path twice and does nothing else: no
generation is begun, no callback is registered, no DOM query and no click is
made, so the selection is not reconciled. -/
theorem C4_settled_rebuild_not_detected :
    settledHome.switchedGeneration = settledHome.pageGeneration ∧
    settledHome.timers = [] ∧
    homeForYou.pathname = settledHome.lastPath ∧
    isHome homeForYou = true ∧
    isFollowingSelected homeForYou = false ∧
    findFollowingTab homeForYou = some 1 ∧
    onMutation homeForYou settledHome =
      { settledHome with
        trace := settledHome.trace ++ [(1, Effect.readPath), (1, Effect.readPath)] } ∧
    (onMutation homeForYou settledHome).pageGeneration = settledHome.pageGeneration ∧
    (onMutation homeForYou settledHome).timers = [] ∧
    clicksAt 1 (onMutation homeForYou settledHome).trace = 0 := by
  decide

/-- The rebuild check when the current generation is not settled: with the
path unchanged and equal to the home path and the desired tab present but not
selected, the mutation notification begins a new generation, and when its
deferred attempt fires on that page it clicks the tab and settles the new
generation. -/
theorem rebuild_detected_when_unsettled (env : Env) (s : State) (tab : Nat)
    (hle : s.switchedGeneration ≤ s.pageGeneration)
    (hpath : env.pathname = s.lastPath) (hhome : isHome env = true)
    (hsel : isFollowingSelected env = false) (hfound : findFollowingTab env = some tab)
    (hns : s.switchedGeneration ≠ s.pageGeneration) :
    (onMutation env s).pageGeneration = s.pageGeneration + 1 ∧
    (onMutation env s).timers = s.timers ++ [⟨Callback.deferred, 0⟩] ∧
    (fire env s.timers.length (onMutation env s)).switchedGeneration =
      s.pageGeneration + 1 ∧
    (fire env s.timers.length (onMutation env s)).trace =
      (onMutation env s).trace ++ [(s.pageGeneration + 1, Effect.readPath),
        (s.pageGeneration + 1, Effect.querySelector),
        (s.pageGeneration + 1, Effect.querySelectorAll),
        (s.pageGeneration + 1, Effect.click tab)] := by
  have hm : onMutation env s =
      startNewGeneration "dom-refresh" (emit Effect.readPath (emit Effect.readPath s)) := by
    simp [onMutation, emit, hpath, hhome, hns]
  have hns2 : ({ emit Effect.readPath (emit Effect.readPath s) with
      pageGeneration := s.pageGeneration + 1, retries := 0 } : State).switchedGeneration ≠
      s.pageGeneration + 1 := by
    simp only [emit]; omega
  have hf := fire_new_deferred env "dom-refresh" (emit Effect.readPath (emit Effect.readPath s))
  have hfound2 := trySwitchFollowing_found env
    { emit Effect.readPath (emit Effect.readPath s) with
      pageGeneration := s.pageGeneration + 1, retries := 0 } tab hhome hsel hfound hns2
  have hlen : (emit Effect.readPath (emit Effect.readPath s)).timers.length =
      s.timers.length := rfl
  have hpg : (emit Effect.readPath (emit Effect.readPath s)).pageGeneration =
      s.pageGeneration := rfl
  rw [hlen, hpg] at hf
  simp only at hfound2
  rw [hm, hf, hfound2]
  exact ⟨rfl, rfl, rfl, rfl⟩

/-- C2 at its failing input.  Generation 1 is created when the script starts
and leaves a deferred callback; a mutation notification creates generation 2
before that callback fires.  When the first callback then fires on a page
showing "Following" unselected, it runs as an attempt of generation 2: it reads
the path, queries the DOM twice, clicks tab 1 and settles generation 2. -/
theorem C2_deferred_attempt_is_not_stale :
    (init homeEmpty).pageGeneration = 1 ∧
    (init homeEmpty).timers = [⟨Callback.deferred, 0⟩] ∧
    twoDeferred.pageGeneration = 2 ∧
    twoDeferred.timers = [⟨Callback.deferred, 0⟩, ⟨Callback.deferred, 0⟩] ∧
    (fire homeForYou 0 twoDeferred).trace =
      twoDeferred.trace ++ [(2, Effect.readPath), (2, Effect.querySelector),
        (2, Effect.querySelectorAll), (2, Effect.click 1)] ∧
    (fire homeForYou 0 twoDeferred).switchedGeneration = 2 := by
  decide

/-- C10 at its failing input.  After generations 1 and 2 were created before
any timer fired, both deferred callbacks run as attempts of generation 2; with
the tab absent each schedules its own retry, so two retries of generation 2 are
pending together, and both run as attempts of generation 2 again. -/
theorem C10_two_chains_in_one_generation :
    twoDeferred.pageGeneration = 2 ∧
    twoDeferred.timers = [⟨Callback.deferred, 0⟩, ⟨Callback.deferred, 0⟩] ∧
    attemptsAt 2 (run twoDeferred (timerTicks [homeEmpty, homeEmpty])).trace = 2 ∧
    (run twoDeferred (timerTicks [homeEmpty, homeEmpty])).timers =
      [⟨Callback.retry 2, 300⟩, ⟨Callback.retry 2, 300⟩] ∧
    (run twoDeferred (timerTicks [homeEmpty, homeEmpty])).pageGeneration = 2 ∧
    attemptsAt 2
      (run twoDeferred (timerTicks [homeEmpty, homeEmpty, homeEmpty, homeEmpty])).trace = 4 := by
  decide

/-- C11 (retry counter).  `startNewGeneration` sets `retries` to 0.  An attempt
with any argument, and so any timer firing, leaves `retries` as it is or adds
exactly one; a `pageshow` event or a mutation notification that begins no
generation leaves it as it is.  Hence a turn of the event loop lowers `retries`
only by beginning a generation, and over any execution that stays in one
generation `retries` does not decrease.  Once `retries` has reached
`RETRY_LIMIT`, an attempt registers no callback. -/
theorem C11_retries_invariant (s : State) :
    (∀ reason, (startNewGeneration reason s).retries = 0) ∧
    (∀ env gen, (trySwitchFollowing env gen s).retries = s.retries ∨
      (trySwitchFollowing env gen s).retries = s.retries + 1) ∧
    (∀ env i, (fire env i s).retries = s.retries ∨
      (fire env i s).retries = s.retries + 1) ∧
    (∀ persisted navType,
      (onPageshow persisted navType s).pageGeneration = s.pageGeneration →
        onPageshow persisted navType s = s) ∧
    (∀ env, (onMutation env s).pageGeneration = s.pageGeneration →
      (onMutation env s).retries = s.retries) ∧
    (∀ x, (step s x).retries < s.retries →
      (step s x).pageGeneration = s.pageGeneration + 1 ∧ (step s x).retries = 0) ∧
    (∀ xs, (run s xs).pageGeneration = s.pageGeneration → s.retries ≤ (run s xs).retries) ∧
    (∀ env gen, RETRY_LIMIT ≤ s.retries →
      (trySwitchFollowing env gen s).timers = s.timers) := by
  refine ⟨fun _ => rfl, fun env gen => ?_, fun env i => ?_, fun p n => onPageshow_same p n s,
    fun env => onMutation_retries env s, step_retries_reset s, run_retries_le s,
    fun env gen hlim => ?_⟩
  · rcases trySwitchFollowing_retry_cases env gen s with ⟨_, h⟩ | ⟨_, _, h⟩
    · exact h
    · exact Or.inr h
  · rcases fire_retry_cases env i s with ⟨_, h⟩ | ⟨_, _, h⟩
    · exact h
    · exact Or.inr h
  · rcases trySwitchFollowing_retry_cases env gen s with ⟨h, _⟩ | ⟨_, h, _⟩
    · exact h
    · omega

/-- C12 (no click/mutation feedback loop).  Once the current generation is
settled, as it is after the click, any number of mutation notifications whose
path equals `lastPath` begin no generation, register no callback and change no
variable: the state differs only by the two path reads each notification adds
to the trace.  Every further attempt for that generation reads the path and
returns, without a DOM query or a click. -/
theorem C12_no_feedback_loop (s : State) (envs : List Env)
    (hset : s.switchedGeneration = s.pageGeneration)
    (hroute : ∀ e ∈ envs, e.pathname = s.lastPath) :
    run s (mutationTicks envs) =
      { s with trace := s.trace ++
          List.replicate (2 * envs.length) (s.pageGeneration, Effect.readPath) } ∧
    ∀ env, trySwitchFollowing env s.pageGeneration (run s (mutationTicks envs)) =
      emit Effect.readPath (run s (mutationTicks envs)) := by
  have h := run_mutations_settled envs s hset hroute
  refine ⟨h, fun env => ?_⟩
  have hpg : (run s (mutationTicks envs)).pageGeneration = s.pageGeneration := by rw [h]
  have hsw : (run s (mutationTicks envs)).switchedGeneration =
      (run s (mutationTicks envs)).pageGeneration := by rw [h]; exact hset
  rw [← hpg]
  exact trySwitchFollowing_settled env _ hsw

/-- Witness of C12: three mutation notifications on the home path after the
first attempt clicked "Following" for generation 1. -/
theorem C12_no_feedback_loop_witness :
    (run (run (init homeForYou) [(homeForYou, Event.timer 0)])
      (mutationTicks [homeForYou, homeFollowing, homeFollowing])).pageGeneration = 1 ∧
    (run (run (init homeForYou) [(homeForYou, Event.timer 0)])
      (mutationTicks [homeForYou, homeFollowing, homeFollowing])).timers = [] :=
  have h := (C12_no_feedback_loop (run (init homeForYou) [(homeForYou, Event.timer 0)])
    [homeForYou, homeFollowing, homeFollowing] (by decide) (by decide)).1
  ⟨by rw [h]; decide, by rw [h]; decide⟩

/-- C13 (stale attempt).  For every state and every argument different from
`pageGeneration`, `trySwitchFollowing` returns the state it was given: no path
read, no DOM query, no click, no callback registered, no variable changed. -/
theorem C13_stale_attempt_noop (env : Env) (gen : Int) (s : State)
    (hstale : gen ≠ s.pageGeneration) : trySwitchFollowing env gen s = s := by
  simp [trySwitchFollowing, hstale]

/-- Witness of C13: an attempt for generation 1 when generation 2 is current. -/
theorem C13_stale_attempt_noop_witness :
    trySwitchFollowing homeForYou 1 twoDeferred = twoDeferred :=
  C13_stale_attempt_noop homeForYou 1 twoDeferred (by decide)

/-- C14 (found but unselected).  When an attempt runs for the current
generation on the home path, that generation is not settled, the selected tab
does not carry the label and `findFollowingTab` returns the tab at position
`tab`, the attempt clicks exactly that tab, once, and settles the generation.
The click is the last entry the attempt adds to the trace, so its result is not
checked; `retries`, the pending callbacks and all other variables are
unchanged. -/
theorem C14_found_unselected (env : Env) (gen : Int) (s : State) (tab : Nat)
    (hcur : gen = s.pageGeneration) (hhome : isHome env = true)
    (hns : s.switchedGeneration ≠ gen) (hsel : isFollowingSelected env = false)
    (hfound : findFollowingTab env = some tab) :
    trySwitchFollowing env gen s =
      { s with
        switchedGeneration := gen
        trace := s.trace ++ [(s.pageGeneration, Effect.readPath),
          (s.pageGeneration, Effect.querySelector),
          (s.pageGeneration, Effect.querySelectorAll),
          (s.pageGeneration, Effect.click tab)] } := by
  subst hcur
  exact trySwitchFollowing_found env s tab hhome hsel hfound hns

/-- Witness of C14: the first attempt of generation 1 on a home page showing
"Following" unselected at position 1. -/
theorem C14_found_unselected_witness :
    (trySwitchFollowing homeForYou 1 (init homeForYou)).switchedGeneration = 1 ∧
    clicksAt 1 (trySwitchFollowing homeForYou 1 (init homeForYou)).trace = 1 :=
  have h := C14_found_unselected homeForYou 1 (init homeForYou) 1
    (by decide) (by decide) (by decide) (by decide) (by decide)
  ⟨by rw [h], by rw [h]; decide⟩

/-- C16 (route-change signal).  On a mutation notification whose path differs
from `lastPath`, `lastPath` becomes the current path and the handler reads the
path exactly three times (lines 147, 148, 149), so the rebuild check of line
155 is not evaluated; on the home path it then makes one call of
`startNewGeneration`, off the home path none.  No other operation changes
`lastPath`: attempts, timer firings, `startNewGeneration` and the `pageshow`
listener keep it. -/
theorem C16_route_change (env : Env) (s : State) (hdiff : env.pathname ≠ s.lastPath) :
    (onMutation env s).lastPath = env.pathname ∧
    (isHome env = true →
      onMutation env s = startNewGeneration "path-change"
        { s with
          lastPath := env.pathname
          trace := s.trace ++ [(s.pageGeneration, Effect.readPath),
            (s.pageGeneration, Effect.readPath), (s.pageGeneration, Effect.readPath)] }) ∧
    (isHome env = false →
      onMutation env s =
        { s with
          lastPath := env.pathname
          trace := s.trace ++ [(s.pageGeneration, Effect.readPath),
            (s.pageGeneration, Effect.readPath), (s.pageGeneration, Effect.readPath)] }) ∧
    (onMutation env s).pageGeneration ≤ s.pageGeneration + 1 ∧
    (∀ env2 gen, (trySwitchFollowing env2 gen s).lastPath = s.lastPath) ∧
    (∀ env2 i, (fire env2 i s).lastPath = s.lastPath) ∧
    (∀ reason, (startNewGeneration reason s).lastPath = s.lastPath) ∧
    (∀ persisted navType, (onPageshow persisted navType s).lastPath = s.lastPath) := by
  have hhome : isHome env = true →
      onMutation env s = startNewGeneration "path-change"
        { s with
          lastPath := env.pathname
          trace := s.trace ++ [(s.pageGeneration, Effect.readPath),
            (s.pageGeneration, Effect.readPath), (s.pageGeneration, Effect.readPath)] } := by
    intro h
    simp [onMutation, emit, hdiff, h]
  have hoff : isHome env = false →
      onMutation env s =
        { s with
          lastPath := env.pathname
          trace := s.trace ++ [(s.pageGeneration, Effect.readPath),
            (s.pageGeneration, Effect.readPath), (s.pageGeneration, Effect.readPath)] } := by
    intro h
    simp [onMutation, emit, hdiff, h]
  refine ⟨?_, hhome, hoff, ?_, fun env2 gen => trySwitchFollowing_lastPath env2 gen s,
    fun env2 i => fire_lastPath env2 i s, fun _ => rfl,
    fun p n => onPageshow_lastPath p n s⟩
  · cases h : isHome env
    · rw [hoff h]
    · rw [hhome h]; rfl
  · cases h : isHome env
    · rw [hoff h]; simp
    · rw [hhome h]; simp [startNewGeneration, setTimeout]

/-- Witness of C16: the page moves from another path to the home path. -/
theorem C16_route_change_witness :
    (onMutation homeEmpty (init explore)).lastPath = "/home" ∧
    (onMutation homeEmpty (init explore)).pageGeneration = 1 :=
  have h := C16_route_change homeEmpty (init explore) (by decide)
  ⟨h.1, by rw [h.2.1 (by decide)]; decide⟩

/-- C17 (lifecycle signal).  The `pageshow` listener never looks at the path
or at the settled generation.  With `persisted` set, or with navigation type
`reload`, it begins a new generation: `pageGeneration` grows by one, `retries`
becomes 0 and one deferred callback with delay 0 joins the pending callbacks,
while `switchedGeneration`, `lastPath` and the trace stay as they were.  With
neither, it returns the state it was given, so nothing changes and nothing is
scheduled. -/
theorem C17_lifecycle_signal (persisted : Bool) (navType : Option String) (s : State) :
    (persisted = true ∨ navType = some "reload" →
      onPageshow persisted navType s =
        { s with
          pageGeneration := s.pageGeneration + 1
          retries := 0
          timers := s.timers ++ [⟨Callback.deferred, 0⟩] }) ∧
    (persisted = false → navType ≠ some "reload" → onPageshow persisted navType s = s) := by
  constructor
  · intro h
    rcases h with h | h <;> simp [onPageshow, startNewGeneration, setTimeout, h]
  · intro h1 h2
    simp [onPageshow, h1, h2]

/-- Witness of C17: on the settled home page a restore from the back-forward
cache and a reload each begin generation 2 and leave one deferred callback; a
plain navigation changes nothing.  The same holds away from the home path. -/
theorem C17_lifecycle_signal_witness :
    (onPageshow true none settledHome).pageGeneration = 2 ∧
    (onPageshow true none settledHome).timers = [⟨Callback.deferred, 0⟩] ∧
    (onPageshow false (some "reload") settledHome).pageGeneration = 2 ∧
    onPageshow false (some "navigate") settledHome = settledHome ∧
    (onPageshow true none (init explore)).pageGeneration = 1 :=
  ⟨by rw [(C17_lifecycle_signal true none settledHome).1 (Or.inl rfl)]; decide,
    by rw [(C17_lifecycle_signal true none settledHome).1 (Or.inl rfl)]; decide,
    by rw [(C17_lifecycle_signal false (some "reload") settledHome).1 (Or.inr rfl)]; decide,
    (C17_lifecycle_signal false (some "navigate") settledHome).2 rfl (by decide),
    by rw [(C17_lifecycle_signal true none (init explore)).1 (Or.inl rfl)]; decide⟩

/-- C18 (off-route attempt).  An attempt for the current generation that runs
while the path is not the home path reads the path and returns: no DOM query,
no click, `retries` not incremented, the generation not settled, no callback
registered. -/
theorem C18_off_route_attempt_noop (env : Env) (gen : Int) (s : State)
    (hcur : gen = s.pageGeneration) (hoff : isHome env = false) :
    trySwitchFollowing env gen s =
      { s with trace := s.trace ++ [(s.pageGeneration, Effect.readPath)] } := by
  subst hcur
  simp [trySwitchFollowing, emit, hoff]

/-- Witness of C18: the deferred attempt of generation 1 fires after the page
left the home path. -/
theorem C18_off_route_attempt_noop_witness :
    (trySwitchFollowing explore 1 (init homeEmpty)).timers = (init homeEmpty).timers ∧
    (trySwitchFollowing explore 1 (init homeEmpty)).retries = 0 :=
  have h := C18_off_route_attempt_noop explore 1 (init homeEmpty) (by decide) (by decide)
  ⟨by rw [h], by rw [h]; decide⟩

/-- C15 as stated fails on two snapshots.  With two tabs carrying the label and
the second one selected, `isFollowingSelected` is true although the tab
`findFollowingTab` returns (position 0) is not selected.  With two selected
tabs and the second one carrying the label, `isFollowingSelected` is false
although the tab `findFollowingTab` returns (position 1) is selected. -/
theorem C15_counterexample :
    (isFollowingSelected twoLabelled = true ∧
      findFollowingTab twoLabelled = some 0 ∧
      (twoLabelled.tabs.get? 0).map (fun t => t.selected) = some false) ∧
    (isFollowingSelected twoSelected = false ∧
      findFollowingTab twoSelected = some 1 ∧
      (twoSelected.tabs.get? 1).map (fun t => t.selected) = some true) := by
  decide

/-- C15 amended (target locator consistency).  For every snapshot:
`isFollowingSelected` is false when no tab is selected, and false when the
selected tab has no text; and if at most one tab is selected and at most one tab
carries the label, `isFollowingSelected` is true exactly when `findFollowingTab`
returns a tab and that tab is selected. -/
theorem C15_locator_consistency (env : Env) :
    (getSelectedTab env = none → isFollowingSelected env = false) ∧
    (∀ t, getSelectedTab env = some t → t.innerText = none →
      isFollowingSelected env = false) ∧
    ((env.tabs.filter (fun t => t.selected)).length ≤ 1 →
      (env.tabs.filter hasFollowingLabel).length ≤ 1 →
      (isFollowingSelected env = true ↔
        ∃ i t, findFollowingTab env = some i ∧ env.tabs.get? i = some t ∧
          t.selected = true)) := by
  refine ⟨?_, ?_, fun hsel hlab => locator_iff env.pathname env.tabs hsel hlab⟩
  · intro h
    simp [isFollowingSelected, h]
  · intro t h1 h2
    simp [isFollowingSelected, h1, hasFollowingLabel, h2]

/-- Witness of C15 amended: on the home page with "Following" selected the
locator finds the tab at position 1 and it is selected; on a page without tabs
nothing is selected and `isFollowingSelected` is false. -/
theorem C15_locator_consistency_witness :
    (∃ i t, findFollowingTab homeFollowing = some i ∧
      homeFollowing.tabs.get? i = some t ∧ t.selected = true) ∧
    isFollowingSelected homeEmpty = false :=
  ⟨((C15_locator_consistency homeFollowing).2.2 (by decide) (by decide)).mp (by decide),
    (C15_locator_consistency homeEmpty).1 (by decide)⟩

/-- C19 (shared retry budget).  After a call of `startNewGeneration`, in any
state and so with any number of callbacks pending, over any execution that
begins no further generation the attempts register at most `RETRY_LIMIT`
delayed retries in total. -/
theorem C19_shared_retry_budget (reason : String) (s0 : State) (xs : List (Env × Event))
    (hsame : (run (startNewGeneration reason s0) xs).pageGeneration =
      s0.pageGeneration + 1) :
    retriesScheduled (startNewGeneration reason s0) xs ≤ RETRY_LIMIT := by
  have h := retriesScheduled_le xs (startNewGeneration reason s0) hsame
  have h0 : (startNewGeneration reason s0).retries = 0 := rfl
  rw [h0] at h
  exact h

/-- Witness of C19: two deferred callbacks of generation 2 and four timer
ticks on a home page that does not show the tab. -/
theorem C19_shared_retry_budget_witness :
    retriesScheduled (startNewGeneration "dom-refresh" (init homeEmpty))
      (timerTicks [homeEmpty, homeEmpty, homeEmpty, homeEmpty]) ≤ RETRY_LIMIT :=
  C19_shared_retry_budget "dom-refresh" (init homeEmpty)
    (timerTicks [homeEmpty, homeEmpty, homeEmpty, homeEmpty]) (by decide)

/-- C20 (quiescence).  From every state, when only timers fire: the measure
`budget` (pending callbacks plus retries still allowed) is at most the number
of pending callbacks plus `RETRY_LIMIT`; it strictly decreases whenever a
pending callback fires, in any environment; hence any sequence of firings of
pending callbacks has at most that many elements, and after that many ticks, each
firing the oldest pending callback, nothing is pending. -/
theorem C20_quiescence (s : State) :
    budget s ≤ s.timers.length + RETRY_LIMIT ∧
    (∀ env i, i < s.timers.length → budget (fire env i s) < budget s) ∧
    (∀ fs, allPending s fs = true → fs.length ≤ s.timers.length + RETRY_LIMIT) ∧
    (∀ envs, s.timers.length + RETRY_LIMIT ≤ envs.length →
      (run s (timerTicks envs)).timers = []) := by
  have hb : budget s ≤ s.timers.length + RETRY_LIMIT := by
    unfold budget; omega
  refine ⟨hb, fun env i h => fire_budget_lt env i s h, fun fs h => ?_, fun envs h => ?_⟩
  · have := allPending_length fs s h
    omega
  · exact timerTicks_quiescent envs s (by omega)

end XFollowing
